import Mathlib

/-!
Verification of the duplex audio bridge in `src/index.js`.

The bridge owns one telephony (Twilio) websocket and one AI (OpenAI realtime)
websocket per call.  Its per-connection mutable state is embedded as
`SessionState`; the two anonymous `on("message")` handlers are embedded as
`processOpenAiMessage` and `processTwilioMessage`.  Handlers return the new
state together with the list of events sent on the AI link and the list of
events sent on the telephony link, in send order.

JavaScript truthiness is modelled explicitly where the source relies on it:
`if (streamSid)` and `if (lastAssistantItem)` and `if (response.item_id)` are
true exactly for a present, non-empty string (`truthyStr`), and
`if (!responseStartTimestampTwilio)` is true for a null or zero number
(`truthyOptInt` is false).  The `!= null` comparison in
`handleSpeechStartedEvent` is `Option.isSome`.
-/

namespace Bridge

/-- The per-connection state declared at the top of the `wss.on("connection")`
handler in `src/index.js` (lines 77-81). -/
structure SessionState where
  streamSid : Option String
  latestMediaTimestamp : Int
  lastAssistantItem : Option String
  markQueue : List String
  responseStartTimestampTwilio : Option Int
deriving Repr, DecidableEq

/-- The initial values of the connection state: `streamSid = null`,
`latestMediaTimestamp = 0`, `lastAssistantItem = null`, `markQueue = []`,
`responseStartTimestampTwilio = null`. -/
def initialState : SessionState :=
  { streamSid := none
    latestMediaTimestamp := 0
    lastAssistantItem := none
    markQueue := []
    responseStartTimestampTwilio := none }

/-- JavaScript truthiness of an optional string field: a string is truthy
iff it is present and non-empty. -/
def truthyStr : Option String → Bool
  | some s => s ≠ ""
  | none => false

/-- JavaScript truthiness of an optional number field: a number is truthy
iff it is present and non-zero (`!responseStartTimestampTwilio` in the source
is true for both `null` and `0`). -/
def truthyOptInt : Option Int → Bool
  | some n => n ≠ 0
  | none => false

/-- A parsed message from the AI link (`JSON.parse(data)` in the
`openAiWs.on("message")` handler): its `type` tag and the two payload fields
the bridge reads, `delta` and `item_id`. -/
structure OpenAiEvent where
  type : String
  delta : Option String
  item_id : Option String
deriving Repr, DecidableEq

/-- A parsed message from the telephony link (`JSON.parse(message)` in the
`ws.on("message")` handler), dispatched on `data.event`. -/
inductive TwilioEvent where
  /-- `data.event === "media"` with `data.media.timestamp` and
  `data.media.payload`. -/
  | media (timestamp : Int) (payload : String)
  /-- `data.event === "start"` with `data.start.streamSid`. -/
  | start (streamSid : String)
  /-- `data.event === "mark"`. -/
  | mark
  /-- any other `data.event` value (the `default` branch, logging only). -/
  | other (event : String)
deriving Repr, DecidableEq

/-- An event sent on the telephony websocket (`ws.send(...)`).  Every outbound
telephony event carries the current `streamSid`, which may still be `null`. -/
inductive TwilioOut where
  /-- `{ event: "media", streamSid, media: { payload } }` (line 203-210).
  The source re-encodes the payload with
  `Buffer.from(response.delta, "base64").toString("base64")`; no claim
  concerns the resulting bytes, so the raw `delta` string is carried here. -/
  | media (streamSid : Option String) (payload : String)
  /-- `{ event: "mark", streamSid, mark: { name } }` (lines 178-183). -/
  | mark (streamSid : Option String) (name : String)
  /-- `{ event: "clear", streamSid }` (lines 161-166). -/
  | clear (streamSid : Option String)
deriving Repr, DecidableEq

/-- An event sent on the AI websocket (`openAiWs.send(...)`) by the two
message handlers. -/
inductive OpenAiOut where
  /-- `{ type: "input_audio_buffer.append", audio }` (lines 253-257). -/
  | inputAudioAppend (audio : String)
  /-- `{ type: "conversation.item.truncate", item_id, content_index,
  audio_end_ms }` (lines 147-158). -/
  | truncate (item_id : String) (content_index : Int) (audio_end_ms : Int)
deriving Repr, DecidableEq

/-- `handleSpeechStartedEvent` (src/index.js lines 138-173): on a caller
barge-in, when `markQueue.length > 0 && responseStartTimestampTwilio != null`,
compute the elapsed playback time, send a `conversation.item.truncate` to the
AI link when `lastAssistantItem` is truthy, send a `clear` to the telephony
link, and reset `markQueue`, `lastAssistantItem` and
`responseStartTimestampTwilio`.  Otherwise do nothing. -/
def handleSpeechStartedEvent (s : SessionState) :
    SessionState × List OpenAiOut × List TwilioOut :=
  if s.markQueue.length > 0 ∧ s.responseStartTimestampTwilio.isSome then
    let rst := s.responseStartTimestampTwilio.getD 0
    let elapsedTime := s.latestMediaTimestamp - rst
    let aiOut :=
      if truthyStr s.lastAssistantItem then
        [OpenAiOut.truncate (s.lastAssistantItem.getD "") 0 elapsedTime]
      else []
    let twilioOut := [TwilioOut.clear s.streamSid]
    ({ s with
        markQueue := []
        lastAssistantItem := none
        responseStartTimestampTwilio := none },
      aiOut, twilioOut)
  else (s, [], [])

/-- `sendMark` (src/index.js lines 176-186): when `streamSid` is truthy, send
a telephony `mark` event named `"responsePart"` and push `"responsePart"`
onto `markQueue`; otherwise do nothing. -/
def sendMark (s : SessionState) : SessionState × List TwilioOut :=
  if truthyStr s.streamSid then
    ({ s with markQueue := s.markQueue ++ ["responsePart"] },
      [TwilioOut.mark s.streamSid "responsePart"])
  else (s, [])

/-- The `openAiWs.on("message")` handler (src/index.js lines 194-238).
When `response.type === "response.audio.delta" && response.delta` (truthy:
present and non-empty), send the telephony `media` event, set
`responseStartTimestampTwilio` to `latestMediaTimestamp` when the former is
falsy (null or 0), record a truthy `item_id` into `lastAssistantItem`, and
call `sendMark`.  When `response.type === "input_audio_buffer.speech_started"`
call `handleSpeechStartedEvent`.  Logging branches carry no state. -/
def processOpenAiMessage (s : SessionState) (e : OpenAiEvent) :
    SessionState × List OpenAiOut × List TwilioOut :=
  let (s1, ai1, tw1) :=
    if e.type = "response.audio.delta" ∧ truthyStr e.delta then
      let mediaOut := TwilioOut.media s.streamSid (e.delta.getD "")
      let sA :=
        if truthyOptInt s.responseStartTimestampTwilio then s
        else { s with responseStartTimestampTwilio := some s.latestMediaTimestamp }
      let sB :=
        if truthyStr e.item_id then { sA with lastAssistantItem := e.item_id }
        else sA
      let (sC, markOut) := sendMark sB
      (sC, ([] : List OpenAiOut), mediaOut :: markOut)
    else (s, [], [])
  if e.type = "input_audio_buffer.speech_started" then
    let (s2, ai2, tw2) := handleSpeechStartedEvent s1
    (s2, ai1 ++ ai2, tw1 ++ tw2)
  else (s1, ai1, tw1)

/-- The `ws.on("message")` handler (src/index.js lines 241-278).  `aiOpen`
models `openAiWs.readyState === WebSocket.OPEN` at the moment the event is
processed.  `media` updates `latestMediaTimestamp` unconditionally and
forwards the payload only when the AI link is open; `start` stores the new
`streamSid` and resets `responseStartTimestampTwilio` and
`latestMediaTimestamp`; `mark` shifts one entry off `markQueue` when
non-empty; anything else only logs. -/
def processTwilioMessage (s : SessionState) (aiOpen : Bool) (e : TwilioEvent) :
    SessionState × List OpenAiOut × List TwilioOut :=
  match e with
  | TwilioEvent.media timestamp payload =>
    let s1 := { s with latestMediaTimestamp := timestamp }
    if aiOpen then (s1, [OpenAiOut.inputAudioAppend payload], [])
    else (s1, [], [])
  | TwilioEvent.start sid =>
    ({ s with
        streamSid := some sid
        responseStartTimestampTwilio := none
        latestMediaTimestamp := 0 },
      [], [])
  | TwilioEvent.mark =>
    if s.markQueue.length > 0 then ({ s with markQueue := s.markQueue.tail }, [], [])
    else (s, [], [])
  | TwilioEvent.other _ => (s, [], [])

/-- Discriminator: is this outbound telephony event a `media` event. -/
def TwilioOut.isMedia : TwilioOut → Bool
  | TwilioOut.media _ _ => true
  | _ => false

/-- Discriminator: is this outbound telephony event a `mark` event. -/
def TwilioOut.isMark : TwilioOut → Bool
  | TwilioOut.mark _ _ => true
  | _ => false

/-- Discriminator: is this outbound telephony event a `clear` event. -/
def TwilioOut.isClear : TwilioOut → Bool
  | TwilioOut.clear _ => true
  | _ => false

/-- One inbound event of a session, from either link (the session serializes
the two handlers, so a run of the bridge is a sequence of these). -/
inductive SessionEvent where
  | fromOpenAi (e : OpenAiEvent)
  | fromTwilio (aiOpen : Bool) (e : TwilioEvent)
deriving Repr, DecidableEq

/-- Process one inbound event from either link. -/
def step (s : SessionState) (e : SessionEvent) :
    SessionState × List OpenAiOut × List TwilioOut :=
  match e with
  | SessionEvent.fromOpenAi e => processOpenAiMessage s e
  | SessionEvent.fromTwilio aiOpen e => processTwilioMessage s aiOpen e

/-- Run a sequence of inbound events from a starting state, keeping only the
state. -/
def run (s : SessionState) : List SessionEvent → SessionState
  | [] => s
  | e :: es => run (step s e).1 es

/-- A session state is reachable when some sequence of inbound events leads
to it from the initial connection state. -/
inductive Reachable : SessionState → Prop
  | init : Reachable initialState
  | next {s : SessionState} (e : SessionEvent) :
      Reachable s → Reachable (step s e).1

/-! ## Theorems -/

/-- C1: in a state with `latestMediaTimestamp = 5000`,
`responseStartTimestamp = 3000`, `lastAssistantItemId = "X"` and a non-empty
`markQueue`, a `speech_started` signal emits exactly one
`conversation.item.truncate` with item id `"X"`, content index 0 and
`audio_end_ms = 2000`, exactly one telephony `clear`, and afterwards
`markQueue` is empty and `lastAssistantItemId` and `responseStartTimestamp`
are unset. -/
theorem speech_started_truncates_at_elapsed (s : SessionState) (d i : Option String)
    (hts : s.latestMediaTimestamp = 5000)
    (hrst : s.responseStartTimestampTwilio = some 3000)
    (hitem : s.lastAssistantItem = some "X")
    (hq : s.markQueue ≠ []) :
    processOpenAiMessage s ⟨"input_audio_buffer.speech_started", d, i⟩ =
      ({ s with
          markQueue := []
          lastAssistantItem := none
          responseStartTimestampTwilio := none },
        [OpenAiOut.truncate "X" 0 2000], [TwilioOut.clear s.streamSid]) := by
  obtain ⟨sid, ts, item, q, rst⟩ := s
  simp only [SessionState.latestMediaTimestamp] at hts
  simp only [SessionState.responseStartTimestampTwilio] at hrst
  simp only [SessionState.lastAssistantItem] at hitem
  simp only [SessionState.markQueue] at hq
  subst hts hrst hitem
  simp [processOpenAiMessage, handleSpeechStartedEvent, truthyStr,
    List.length_pos.mpr hq]

/-- Witness for C1 at a concrete interrupted state. -/
theorem speech_started_truncates_at_elapsed_witness :
    processOpenAiMessage
      { streamSid := some "S1", latestMediaTimestamp := 5000,
        lastAssistantItem := some "X", markQueue := ["responsePart"],
        responseStartTimestampTwilio := some 3000 }
      ⟨"input_audio_buffer.speech_started", none, none⟩ =
      ({ streamSid := some "S1", latestMediaTimestamp := 5000,
          lastAssistantItem := none, markQueue := [],
          responseStartTimestampTwilio := none },
        [OpenAiOut.truncate "X" 0 2000], [TwilioOut.clear (some "S1")]) :=
  speech_started_truncates_at_elapsed _ none none rfl rfl rfl (by decide)

/-- C5: an inbound telephony `media` event always overwrites
`latestMediaTimestamp` with the event's timestamp; when the AI link is open
the payload is forwarded as exactly one identical
`input_audio_buffer.append`, and when it is not open nothing is sent and no
other field changes. -/
theorem media_forwarding (s : SessionState) (aiOpen : Bool) (ts : Int) (p : String) :
    (processTwilioMessage s aiOpen (TwilioEvent.media ts p)).1.latestMediaTimestamp = ts
    ∧ (aiOpen = true →
        processTwilioMessage s aiOpen (TwilioEvent.media ts p) =
          ({ s with latestMediaTimestamp := ts },
            [OpenAiOut.inputAudioAppend p], []))
    ∧ (aiOpen = false →
        processTwilioMessage s aiOpen (TwilioEvent.media ts p) =
          ({ s with latestMediaTimestamp := ts }, [], [])) := by
  cases aiOpen <;> simp [processTwilioMessage]

/-- Witness for C5: both the open and the closed AI-link case at concrete
inputs. -/
theorem media_forwarding_witness :
    processTwilioMessage initialState true (TwilioEvent.media 100 "AAA") =
      ({ initialState with latestMediaTimestamp := 100 },
        [OpenAiOut.inputAudioAppend "AAA"], [])
    ∧ processTwilioMessage initialState false (TwilioEvent.media 100 "AAA") =
      ({ initialState with latestMediaTimestamp := 100 }, [], []) :=
  ⟨(media_forwarding initialState true 100 "AAA").2.1 rfl,
    (media_forwarding initialState false 100 "AAA").2.2 rfl⟩

/-- C6: a `speech_started` signal arriving with `markQueue` empty or
`responseStartTimestamp` unset emits no event on either link and leaves the
whole session state unchanged. -/
theorem speech_started_noop (s : SessionState) (d i : Option String)
    (h : s.markQueue = [] ∨ s.responseStartTimestampTwilio = none) :
    processOpenAiMessage s ⟨"input_audio_buffer.speech_started", d, i⟩ =
      (s, [], []) := by
  rcases h with h | h <;>
    simp [processOpenAiMessage, handleSpeechStartedEvent, h]

/-- Witness for C6 at the initial state (empty `markQueue`). -/
theorem speech_started_noop_witness :
    processOpenAiMessage initialState
      ⟨"input_audio_buffer.speech_started", none, none⟩ =
      (initialState, [], []) :=
  speech_started_noop initialState none none (Or.inl rfl)

/-- C7: an inbound telephony `mark` event pops exactly the oldest entry of a
non-empty `markQueue` (length decreases by exactly one) and is a no-op on an
empty queue, so the length never goes below zero. -/
theorem mark_pops_fifo (s : SessionState) (aiOpen : Bool) :
    (∀ x xs, s.markQueue = x :: xs →
      processTwilioMessage s aiOpen TwilioEvent.mark =
        ({ s with markQueue := xs }, [], [])
      ∧ (processTwilioMessage s aiOpen TwilioEvent.mark).1.markQueue.length + 1 =
        s.markQueue.length)
    ∧ (s.markQueue = [] →
        processTwilioMessage s aiOpen TwilioEvent.mark = (s, [], [])) := by
  constructor
  · intro x xs hq
    constructor <;> simp [processTwilioMessage, hq]
  · intro hq
    simp [processTwilioMessage, hq]

/-- Witness for C7: popping a two-element queue removes its head, and a
second application on the emptied queue is covered by the empty case at the
initial state. -/
theorem mark_pops_fifo_witness :
    processTwilioMessage
      { streamSid := some "S1", latestMediaTimestamp := 0,
        lastAssistantItem := none, markQueue := ["responsePart", "responsePart"],
        responseStartTimestampTwilio := none } true TwilioEvent.mark =
      ({ streamSid := some "S1", latestMediaTimestamp := 0,
          lastAssistantItem := none, markQueue := ["responsePart"],
          responseStartTimestampTwilio := none }, [], [])
    ∧ processTwilioMessage initialState true TwilioEvent.mark =
      (initialState, [], []) :=
  ⟨((mark_pops_fifo
      { streamSid := some "S1", latestMediaTimestamp := 0,
        lastAssistantItem := none, markQueue := ["responsePart", "responsePart"],
        responseStartTimestampTwilio := none } true).1
      "responsePart" ["responsePart"] rfl).1,
    (mark_pops_fifo initialState true).2 rfl⟩

/-- C8: a telephony `start` event stores the event's stream id, resets
`latestMediaTimestamp` to 0 whatever its prior value, and unsets
`responseStartTimestamp`. -/
theorem start_resets_timing (s : SessionState) (aiOpen : Bool) (sid : String) :
    processTwilioMessage s aiOpen (TwilioEvent.start sid) =
      ({ s with
          streamSid := some sid
          latestMediaTimestamp := 0
          responseStartTimestampTwilio := none }, [], []) := by
  simp [processTwilioMessage]

/-- C10: a telephony `start` event leaves `markQueue` and
`lastAssistantItemId` untouched: tokens and the assistant item id survive a
stream restart. -/
theorem start_preserves_marks_and_item (s : SessionState) (aiOpen : Bool) (sid : String) :
    (processTwilioMessage s aiOpen (TwilioEvent.start sid)).1.markQueue = s.markQueue
    ∧ (processTwilioMessage s aiOpen (TwilioEvent.start sid)).1.lastAssistantItem =
      s.lastAssistantItem := by
  simp [processTwilioMessage]

/-- C9: a `response.audio.delta` message whose `delta` field is absent or the
empty string (falsy in the source's `response.delta` guard) emits nothing on
either link and leaves the session state unchanged. -/
theorem empty_delta_noop (s : SessionState) (e : OpenAiEvent)
    (htype : e.type = "response.audio.delta")
    (hdelta : e.delta = none ∨ e.delta = some "") :
    processOpenAiMessage s e = (s, [], []) := by
  rcases hdelta with h | h <;>
    simp [processOpenAiMessage, handleSpeechStartedEvent, truthyStr, htype, h]

/-- Witness for C9 at a concrete absent-delta message. -/
theorem empty_delta_noop_witness :
    processOpenAiMessage initialState ⟨"response.audio.delta", none, some "item-1"⟩ =
      (initialState, [], []) :=
  empty_delta_noop initialState ⟨"response.audio.delta", none, some "item-1"⟩
    rfl (Or.inl rfl)

/-- Counterexample to C2: at the initial state (`streamSid` still null) a
`response.audio.delta` with a payload emits the telephony `media` event but
no `mark` event, and `markQueue` stays empty — not one of each. -/
theorem response_delta_without_sid_cex :
    (processOpenAiMessage initialState
      ⟨"response.audio.delta", some "BBB", some "item-1"⟩).2.2 =
      [TwilioOut.media none "BBB"]
    ∧ (processOpenAiMessage initialState
        ⟨"response.audio.delta", some "BBB", some "item-1"⟩).2.2.countP
        TwilioOut.isMark = 0
    ∧ (processOpenAiMessage initialState
        ⟨"response.audio.delta", some "BBB", some "item-1"⟩).1.markQueue.length =
      initialState.markQueue.length := by
  refine ⟨?_, ?_, ?_⟩ <;> rfl

/-- C2 as amended: a `response.audio.delta` carrying a non-empty payload,
processed while `streamSid` is set to a non-empty id, emits exactly one
telephony `media` event followed by exactly one `mark` event, and appends
exactly one token to `markQueue`; when `streamSid` is still unset the `media`
event is emitted alone and the queue does not grow. -/
theorem response_delta_emits_media_and_mark (s : SessionState) (e : OpenAiEvent)
    (htype : e.type = "response.audio.delta")
    (hdelta : truthyStr e.delta = true)
    (hsid : truthyStr s.streamSid = true) :
    (processOpenAiMessage s e).2.2 =
      [TwilioOut.media s.streamSid (e.delta.getD ""),
        TwilioOut.mark s.streamSid "responsePart"]
    ∧ (processOpenAiMessage s e).1.markQueue = s.markQueue ++ ["responsePart"]
    ∧ (processOpenAiMessage s e).1.markQueue.length = s.markQueue.length + 1 := by
  have hne : e.type ≠ "input_audio_buffer.speech_started" := by
    rw [htype]; decide
  simp only [processOpenAiMessage, sendMark, htype, hdelta, hne]
  split_ifs <;> simp_all

/-- Witness for the amended C2 at a concrete state with a stream id. -/
theorem response_delta_emits_media_and_mark_witness :
    (processOpenAiMessage
      { streamSid := some "S1", latestMediaTimestamp := 100,
        lastAssistantItem := none, markQueue := [],
        responseStartTimestampTwilio := none }
      ⟨"response.audio.delta", some "BBB", some "item-1"⟩).2.2 =
      [TwilioOut.media (some "S1") "BBB", TwilioOut.mark (some "S1") "responsePart"]
    ∧ (processOpenAiMessage
        { streamSid := some "S1", latestMediaTimestamp := 100,
          lastAssistantItem := none, markQueue := [],
          responseStartTimestampTwilio := none }
        ⟨"response.audio.delta", some "BBB", some "item-1"⟩).1.markQueue =
      [] ++ ["responsePart"]
    ∧ (processOpenAiMessage
        { streamSid := some "S1", latestMediaTimestamp := 100,
          lastAssistantItem := none, markQueue := [],
          responseStartTimestampTwilio := none }
        ⟨"response.audio.delta", some "BBB", some "item-1"⟩).1.markQueue.length =
      List.length ([] : List String) + 1 :=
  response_delta_emits_media_and_mark
    { streamSid := some "S1", latestMediaTimestamp := 100,
      lastAssistantItem := none, markQueue := [],
      responseStartTimestampTwilio := none }
    ⟨"response.audio.delta", some "BBB", some "item-1"⟩ rfl rfl rfl

/-- Helper: the AI-link message handler never changes `streamSid`. -/
theorem processOpenAiMessage_streamSid (s : SessionState) (e : OpenAiEvent) :
    (processOpenAiMessage s e).1.streamSid = s.streamSid := by
  simp only [processOpenAiMessage, handleSpeechStartedEvent, sendMark]
  split_ifs <;> rfl

/-- Helper: each step preserves the invariant "while `streamSid` is unset,
`markQueue` is empty" (marks are only pushed under a truthy `streamSid`, and
`streamSid`, once set, is never unset). -/
theorem step_preserves_empty_queue_inv (s : SessionState) (e : SessionEvent)
    (h : s.streamSid = none → s.markQueue = []) :
    (step s e).1.streamSid = none → (step s e).1.markQueue = [] := by
  intro hsid
  cases e with
  | fromOpenAi ev =>
    have hs : s.streamSid = none := by
      rw [← processOpenAiMessage_streamSid s ev]; exact hsid
    have hq : s.markQueue = [] := h hs
    obtain ⟨sid, ts, item, q, rst⟩ := s
    have hs' : sid = none := hs
    have hq' : q = [] := hq
    subst hs' hq'
    simp only [step, processOpenAiMessage, handleSpeechStartedEvent, sendMark]
    split_ifs <;> simp_all [truthyStr]
  | fromTwilio aiOpen ev =>
    obtain ⟨sid, ts, item, q, rst⟩ := s
    cases ev with
    | media t p => cases aiOpen <;> exact h hsid
    | start sid' => simp [step, processTwilioMessage] at hsid
    | mark =>
      simp only [step, processTwilioMessage] at hsid ⊢
      split at hsid <;> split <;> simp_all
    | other ev => exact h hsid

/-- Helper: in every reachable state, `markQueue` is empty while `streamSid`
is unset. -/
theorem reachable_empty_queue (s : SessionState) (hr : Reachable s) :
    s.streamSid = none → s.markQueue = [] := by
  induction hr with
  | init => intro _; rfl
  | next e _ ih => exact step_preserves_empty_queue_inv _ e ih

/-- Counterexample to C3: the initial state is reachable with `streamSid`
unset, yet processing a `response.audio.delta` there emits one outbound
telephony `media` event. -/
theorem media_before_start_cex :
    Reachable initialState
    ∧ initialState.streamSid = none
    ∧ (step initialState (SessionEvent.fromOpenAi
        ⟨"response.audio.delta", some "BBB", none⟩)).2.2.countP
        TwilioOut.isMedia = 1 :=
  ⟨Reachable.init, rfl, rfl⟩

/-- C3 as amended: in every reachable state with `streamSid` still unset, no
outbound telephony `clear` or `mark` event is emitted by any processed event
(a `media` event, however, can be emitted before the stream id is known). -/
theorem no_clear_or_mark_before_start (s : SessionState) (e : SessionEvent)
    (hr : Reachable s) (hsid : s.streamSid = none) :
    (step s e).2.2.countP TwilioOut.isClear = 0
    ∧ (step s e).2.2.countP TwilioOut.isMark = 0 := by
  have hq : s.markQueue = [] := reachable_empty_queue s hr hsid
  cases e with
  | fromOpenAi ev =>
    obtain ⟨sid, ts, item, q, rst⟩ := s
    have hs' : sid = none := hsid
    have hq' : q = [] := hq
    subst hs' hq'
    simp only [step, processOpenAiMessage, handleSpeechStartedEvent, sendMark]
    split_ifs <;>
      simp_all [truthyStr, TwilioOut.isClear, TwilioOut.isMark,
        List.countP_cons, List.countP_nil]
  | fromTwilio aiOpen ev =>
    obtain ⟨sid, ts, item, q, rst⟩ := s
    cases ev <;> cases aiOpen <;> cases q <;>
      simp [step, processTwilioMessage, List.countP_nil]

/-- Witness for the amended C3: the initial state with an AI audio delta. -/
theorem no_clear_or_mark_before_start_witness :
    (step initialState (SessionEvent.fromOpenAi
      ⟨"response.audio.delta", some "BBB", none⟩)).2.2.countP TwilioOut.isClear = 0
    ∧ (step initialState (SessionEvent.fromOpenAi
        ⟨"response.audio.delta", some "BBB", none⟩)).2.2.countP TwilioOut.isMark = 0 :=
  no_clear_or_mark_before_start initialState
    (SessionEvent.fromOpenAi ⟨"response.audio.delta", some "BBB", none⟩)
    Reachable.init rfl

/-- Counterexample to C4: after `start` (timestamps reset to 0), the first
delta of a response records `responseStartTimestamp = 0`; it is not cleared
by a later inbound `media` event, yet the next delta of the same response
reassigns it to 77, because the source's `!responseStartTimestampTwilio`
guard treats the recorded value 0 as unset.  So it is assigned twice within
a single response. -/
theorem response_start_reassigned_cex :
    ((run initialState
      [SessionEvent.fromTwilio true (TwilioEvent.start "S1"),
        SessionEvent.fromOpenAi ⟨"response.audio.delta", some "B1", some "item-1"⟩]
      ).responseStartTimestampTwilio = some 0)
    ∧ ((run initialState
        [SessionEvent.fromTwilio true (TwilioEvent.start "S1"),
          SessionEvent.fromOpenAi ⟨"response.audio.delta", some "B1", some "item-1"⟩,
          SessionEvent.fromTwilio true (TwilioEvent.media 77 "AAA")]
        ).responseStartTimestampTwilio = some 0)
    ∧ ((run initialState
        [SessionEvent.fromTwilio true (TwilioEvent.start "S1"),
          SessionEvent.fromOpenAi ⟨"response.audio.delta", some "B1", some "item-1"⟩,
          SessionEvent.fromTwilio true (TwilioEvent.media 77 "AAA"),
          SessionEvent.fromOpenAi ⟨"response.audio.delta", some "B2", some "item-1"⟩]
        ).responseStartTimestampTwilio = some 77) := by
  refine ⟨?_, ?_, ?_⟩ <;> rfl

/-- C4 as amended: processing a `response.audio.delta` leaves a non-zero
`responseStartTimestamp` unchanged, and when it is unset — or holds the
value 0, which the source's truthiness guard conflates with unset — a delta
carrying a payload re-anchors it to the current `latestMediaTimestamp`.
Hence it is assigned at most once per response provided the first recorded
value is non-zero. -/
theorem response_start_set_once_unless_zero (s : SessionState) (e : OpenAiEvent)
    (htype : e.type = "response.audio.delta") :
    (truthyOptInt s.responseStartTimestampTwilio = true →
      (processOpenAiMessage s e).1.responseStartTimestampTwilio =
        s.responseStartTimestampTwilio)
    ∧ (truthyOptInt s.responseStartTimestampTwilio = false →
      truthyStr e.delta = true →
      (processOpenAiMessage s e).1.responseStartTimestampTwilio =
        some s.latestMediaTimestamp) := by
  have hne : e.type ≠ "input_audio_buffer.speech_started" := by
    rw [htype]; decide
  constructor
  · intro hrst
    simp only [processOpenAiMessage, sendMark, hne]
    split_ifs <;> simp_all
  · intro hrst hdelta
    simp only [processOpenAiMessage, sendMark, htype, hdelta, hne]
    split_ifs <;> simp_all

/-- Witness for the amended C4: a non-zero anchor of 3000 survives a further
delta, and an unset anchor is set to the current `latestMediaTimestamp`. -/
theorem response_start_set_once_unless_zero_witness :
    ((processOpenAiMessage
      { streamSid := some "S1", latestMediaTimestamp := 5000,
        lastAssistantItem := none, markQueue := ["responsePart"],
        responseStartTimestampTwilio := some 3000 }
      ⟨"response.audio.delta", some "B2", none⟩).1.responseStartTimestampTwilio =
      some 3000)
    ∧ ((processOpenAiMessage
        { streamSid := some "S1", latestMediaTimestamp := 100,
          lastAssistantItem := none, markQueue := [],
          responseStartTimestampTwilio := none }
        ⟨"response.audio.delta", some "B1", none⟩).1.responseStartTimestampTwilio =
      some 100) :=
  ⟨(response_start_set_once_unless_zero
      { streamSid := some "S1", latestMediaTimestamp := 5000,
        lastAssistantItem := none, markQueue := ["responsePart"],
        responseStartTimestampTwilio := some 3000 }
      ⟨"response.audio.delta", some "B2", none⟩ rfl).1 (by decide),
    (response_start_set_once_unless_zero
      { streamSid := some "S1", latestMediaTimestamp := 100,
        lastAssistantItem := none, markQueue := [],
        responseStartTimestampTwilio := none }
      ⟨"response.audio.delta", some "B1", none⟩ rfl).2 rfl rfl⟩

end Bridge
